import Mathlib

/-!
Verification development for the shitposting-webapp session synchronization
core (`src/session.rs`, `src/player.rs`).

The embedding is shallow:

* `State` mirrors the `State` enum of `player.rs` (OvenPlayer states).
* `PlayerMessage` / `BackendMessage` mirror the socket message enums of
  `player.rs`; their JSON encodings are modelled by explicit functions over a
  small `Json` value type, following serde's externally-tagged enum
  representation that `#[derive(Serialize, Deserialize)]` generates
  (`PlayerMessage` has no rename attribute, `BackendMessage` carries
  `#[serde(rename_all = "snake_case")]`, `State` carries
  `#[serde(rename_all = "lowercase")]`).  Unit variants serialize to the bare
  variant-name string and deserialize from either that string or the
  single-key object with a `null` payload, exactly as serde_json does.
* The `SessionManager` actor of `session.rs` is modelled as an association
  list from session keys to `Session` values; each actix message handler
  becomes a pure function from the manager state (plus the message fields) to
  the new manager state together with the list of commands it `do_send`s to
  player actors, in program order.  A player actor address (`Addr<PlayerActor>`,
  compared by identity in the source) is modelled as an opaque `Handle := Nat`.
* `f64` position payloads are carried opaquely: the core never computes with
  them, it only stores them in messages and rebroadcasts, so the payload is
  modelled by `Int`.
-/

/-- A player actor address (`Addr<PlayerActor>`): opaque, compared by
identity. -/
abbrev Handle := Nat

/-- A minimal JSON value type, sufficient for the socket protocol frames.
Numbers are carried as `Int` (the core never computes with the `f64`
payloads). -/
inductive Json where
  | null : Json
  | str (s : String) : Json
  | num (n : Int) : Json
  | obj (fields : List (String × Json)) : Json

/-- `player.rs` `State`: the OvenPlayer state enum, in source order. -/
inductive State where
  | Idle
  | Complete
  | Paused
  | Playing
  | Error
  | Loading
  | Stalled
  | AdLoaded
  | AdPlaying
  | AdPaused
  | AdComplete
deriving DecidableEq

/-- The serde token for a `State`, per `#[serde(rename_all = "lowercase")]`. -/
def stateToken : State → String
  | .Idle => "idle"
  | .Complete => "complete"
  | .Paused => "paused"
  | .Playing => "playing"
  | .Error => "error"
  | .Loading => "loading"
  | .Stalled => "stalled"
  | .AdLoaded => "adloaded"
  | .AdPlaying => "adplaying"
  | .AdPaused => "adpaused"
  | .AdComplete => "adcomplete"

/-- Deserialization of a `State` from its lowercase token. -/
def stateFromToken : String → Option State
  | "idle" => some .Idle
  | "complete" => some .Complete
  | "paused" => some .Paused
  | "playing" => some .Playing
  | "error" => some .Error
  | "loading" => some .Loading
  | "stalled" => some .Stalled
  | "adloaded" => some .AdLoaded
  | "adplaying" => some .AdPlaying
  | "adpaused" => some .AdPaused
  | "adcomplete" => some .AdComplete
  | _ => none

/-- Deserialize a `State` from a JSON value (serde: a lowercase string). -/
def deserializeState : Json → Option State
  | .str t => stateFromToken t
  | _ => none

/-- `player.rs` `PlayerMessage`: the messages sent from the player site
itself (inbound client events). -/
inductive PlayerMessage where
  | Seeked
  | StateChanged (state : State)
  | Position (position : Int)
  | PlaylistChanged (index : Nat)
deriving DecidableEq

/-- `player.rs` `BackendMessage`: the outbound server commands
(`#[serde(rename_all = "snake_case")]`). -/
inductive BackendMessage where
  | SyncPosition
  | ChangeState (state : State)
  | ChangePosition (position : Int)
  | ChangePlaylist (index : Nat)
deriving DecidableEq

/-- serde serialization of `PlayerMessage` (externally tagged, no rename
attribute: the discriminant is the variant name verbatim; the unit variant
serializes to the bare name string). -/
def serializePlayerMessage : PlayerMessage → Json
  | .Seeked => .str "Seeked"
  | .StateChanged s => .obj [("StateChanged", .str (stateToken s))]
  | .Position p => .obj [("Position", .num p)]
  | .PlaylistChanged i => .obj [("PlaylistChanged", .num (i : Int))]

/-- serde deserialization of `PlayerMessage` (externally tagged, variant
names verbatim; a unit variant parses from the bare name string or from the
single-key object with `null` payload; `usize` rejects negative numbers). -/
def deserializePlayerMessage : Json → Option PlayerMessage
  | .str "Seeked" => some .Seeked
  | .obj [(tag, value)] =>
    if tag = "Seeked" then
      match value with
      | .null => some .Seeked
      | _ => none
    else if tag = "StateChanged" then
      (deserializeState value).map .StateChanged
    else if tag = "Position" then
      match value with
      | .num n => some (.Position n)
      | _ => none
    else if tag = "PlaylistChanged" then
      match value with
      | .num (Int.ofNat n) => some (.PlaylistChanged n)
      | _ => none
    else
      none
  | _ => none

/-- serde serialization of `BackendMessage`
(`#[serde(rename_all = "snake_case")]`, externally tagged: the unit variant
`SyncPosition` serializes to the bare string `"sync_position"`). -/
def serializeBackendMessage : BackendMessage → Json
  | .SyncPosition => .str "sync_position"
  | .ChangeState s => .obj [("change_state", .str (stateToken s))]
  | .ChangePosition p => .obj [("change_position", .num p)]
  | .ChangePlaylist i => .obj [("change_playlist", .num (i : Int))]

/-- `main.rs` `Shitpost`: one content item. -/
structure Shitpost where
  title : String
  url : String
deriving DecidableEq

/-- `session.rs` `Session`. -/
structure Session where
  shitposts : List Shitpost
  state : State
  playlist_index : Nat
  players : List Handle
deriving DecidableEq

/-- The `SessionManager`'s `sessions: HashMap<Arc<str>, Session>`, modelled
as an association list (keys unique). -/
abbrev SessionManager := List (String × Session)

/-- `self.sessions.get(&key)`. -/
def findSession : SessionManager → String → Option Session
  | [], _ => none
  | (k', s) :: rest, k => if k' = k then some s else findSession rest k

/-- Mutation through `self.sessions.get_mut(&key)`: apply `f` to the entry
with the given key, leave every other entry unchanged. -/
def updateSession : SessionManager → String → (Session → Session) → SessionManager
  | [], _, _ => []
  | (k', s) :: rest, k, f =>
    if k' = k then (k', f s) :: updateSession rest k f
    else (k', s) :: updateSession rest k f

/-- `self.sessions.remove(&key)`. -/
def removeSession : SessionManager → String → SessionManager
  | [], _ => []
  | (k', s) :: rest, k =>
    if k' = k then removeSession rest k else (k', s) :: removeSession rest k

/-- One command `do_send`t to a player actor: the target handle and the
message (which the `PlayerActor` handlers serialize 1:1 as a
`BackendMessage` text frame). -/
abbrev Effect := Handle × BackendMessage

/-- `Handler<NewSession>`: insert a fresh session (state `Paused`, index 0,
no players) if the key is vacant and answer `true`, else answer `false` and
leave the map untouched. -/
def handleNewSession (m : SessionManager) (session : String)
    (shitposts : List Shitpost) : SessionManager × Bool :=
  match findSession m session with
  | some _ => (m, false)
  | none =>
    ((session, { shitposts := shitposts, state := .Paused,
                 playlist_index := 0, players := [] }) :: m, true)

/-- `Handler<PlayerConnect>`: if the session exists, send the connecting
player `ChangeState` (current state) and `ChangePlaylist` (current index),
push it onto the player list, and send `SyncPosition` to `players[0]`.
After the push the list is nonempty, so `headD`'s default is never used. -/
def handlePlayerConnect (m : SessionManager) (session : String)
    (player : Handle) : SessionManager × List Effect :=
  match findSession m session with
  | none => (m, [])
  | some s =>
    ((updateSession m session fun t => { t with players := t.players ++ [player] }),
     [(player, .ChangeState s.state),
      (player, .ChangePlaylist s.playlist_index),
      ((s.players ++ [player]).headD player, .SyncPosition)])

/-- `Handler<PlayerDisconnect>`: `retain` every player different from the
disconnecting one (identity comparison); if the list becomes empty, remove
the session. -/
def handlePlayerDisconnect (m : SessionManager) (session : String)
    (player : Handle) : SessionManager :=
  match findSession m session with
  | none => m
  | some s =>
    if s.players.filter (· ≠ player) = [] then removeSession m session
    else updateSession m session fun t => { t with players := t.players.filter (· ≠ player) }

/-- `Handler<StateChanged>`: store the new state and send `ChangeState` to
every player of the session, in list order. -/
def handleStateChanged (m : SessionManager) (session : String)
    (state : State) : SessionManager × List Effect :=
  match findSession m session with
  | none => (m, [])
  | some s =>
    ((updateSession m session fun t => { t with state := state }),
     s.players.map fun p => (p, .ChangeState state))

/-- `Handler<PlaylistChanged>`: store the new index (no bounds check) and
send `ChangePlaylist` to every player of the session. -/
def handlePlaylistChanged (m : SessionManager) (session : String)
    (index : Nat) : SessionManager × List Effect :=
  match findSession m session with
  | none => (m, [])
  | some s =>
    ((updateSession m session fun t => { t with playlist_index := index }),
     s.players.map fun p => (p, .ChangePlaylist index))

/-- `Handler<Position>`: broadcast `ChangePosition` to every player of the
session; the session map is not touched. -/
def handlePosition (m : SessionManager) (session : String)
    (position : Int) : SessionManager × List Effect :=
  match findSession m session with
  | none => (m, [])
  | some s =>
    (m, s.players.map fun p => (p, .ChangePosition position))

/-- `Handler<Seeked>`: send `SyncPosition` back to the reporting player. -/
def handleSeeked (m : SessionManager) (player : Handle) :
    SessionManager × List Effect :=
  (m, [(player, .SyncPosition)])

/-- `Handler<GetSession>`: `self.sessions.get(&key).cloned()`. -/
def handleGetSession (m : SessionManager) (session : String) : Option Session :=
  findSession m session

/-- `impl StreamHandler<...> for PlayerActor`: the registry message a
successfully parsed inbound frame is translated to (`session.rs` message
structs). -/
inductive SessionMessage where
  | Seeked (player : Handle)
  | StateChanged (session : String) (state : State)
  | Position (session : String) (position : Int)
  | PlaylistChanged (session : String) (index : Nat)
deriving DecidableEq

/-- One inbound item of the websocket stream
(`Result<ws::Message, ws::ProtocolError>`); a text frame is carried at the
JSON-value level, so `Text j` stands for a frame whose text is valid JSON
`j`, and decode failure of the typed layer is `deserializePlayerMessage j =
none`. -/
inductive WsItem where
  | Ping (data : List Nat)
  | Pong (data : List Nat)
  | Text (content : Json)
  | Binary
  | Close
  | Continuation
  | Nop
  | ProtocolError

/-- The outcome of one `StreamHandler::handle` call on a `PlayerActor`. -/
inductive StreamOutcome where
  | PongReply (data : List Nat)
  | HeartbeatReset
  | Send (msg : SessionMessage)
  | Stop
  | Panic
deriving DecidableEq

/-- The `StreamHandler` body of `player.rs`: ping is answered with a pong
(and resets the heartbeat clock), pong resets the clock, a text frame is
decoded with `serde_json::from_str(&text).unwrap()` — so a frame that fails
to decode as a `PlayerMessage` panics the actor task (it does not reach
`ctx.stop()`) — and every other item hits the `_ => ctx.stop()` arm. -/
def streamHandle (sessionKey : String) (selfAddr : Handle) :
    WsItem → StreamOutcome
  | .Ping d => .PongReply d
  | .Pong _ => .HeartbeatReset
  | .Text content =>
    match deserializePlayerMessage content with
    | none => .Panic
    | some .Seeked => .Send (.Seeked selfAddr)
    | some (.StateChanged st) => .Send (.StateChanged sessionKey st)
    | some (.Position p) => .Send (.Position sessionKey p)
    | some (.PlaylistChanged i) => .Send (.PlaylistChanged sessionKey i)
  | _ => .Stop

/-! ### Association-list helper lemmas -/

theorem findSession_updateSession_self (m : SessionManager) (k : String)
    (f : Session → Session) :
    findSession (updateSession m k f) k = (findSession m k).map f := by
  induction m with
  | nil => rfl
  | cons kv rest ih =>
    obtain ⟨k', s⟩ := kv
    by_cases hk : k' = k
    · simp [updateSession, findSession, hk]
    · simp [updateSession, findSession, hk, ih]

theorem findSession_removeSession_self (m : SessionManager) (k : String) :
    findSession (removeSession m k) k = none := by
  induction m with
  | nil => rfl
  | cons kv rest ih =>
    obtain ⟨k', s⟩ := kv
    by_cases hk : k' = k
    · simp [removeSession, hk, ih]
    · simp [removeSession, findSession, hk, ih]

/-! ### Claim theorems -/

/-- C5: `NewSession` inserts a session with state `Paused`, index 0 and an
empty player set and returns `true` exactly when the key is not already
present (other keys untouched); when the key exists it returns `false` and
performs no mutation, so the original session survives a second create. -/
theorem newSession_spec :
    (∀ (m : SessionManager) (k : String) (posts : List Shitpost),
        findSession m k = none →
        (handleNewSession m k posts).2 = true ∧
        findSession (handleNewSession m k posts).1 k =
          some { shitposts := posts, state := .Paused, playlist_index := 0,
                 players := [] } ∧
        ∀ k', k' ≠ k →
          findSession (handleNewSession m k posts).1 k' = findSession m k') ∧
    (∀ (m : SessionManager) (k : String) (posts : List Shitpost) (s : Session),
        findSession m k = some s →
        (handleNewSession m k posts).2 = false ∧
        (handleNewSession m k posts).1 = m) := by
  constructor
  · intro m k posts hnone
    refine ⟨?_, ?_, ?_⟩
    · simp [handleNewSession, hnone]
    · simp [handleNewSession, hnone, findSession]
    · intro k' hk'
      simp [handleNewSession, hnone, findSession, Ne.symm hk']
  · intro m k posts s hsome
    simp [handleNewSession, hsome]

theorem newSession_spec_witness :
    findSession [] "k" = none ∧
    (handleNewSession [] "k" []).2 = true ∧
    findSession (handleNewSession [] "k" []).1 "k" =
      some { shitposts := [], state := .Paused, playlist_index := 0,
             players := [] } ∧
    (handleNewSession (handleNewSession [] "k" []).1 "k"
        [{ title := "t", url := "u" }]).2 = false ∧
    (handleNewSession (handleNewSession [] "k" []).1 "k"
        [{ title := "t", url := "u" }]).1 = (handleNewSession [] "k" []).1 :=
  ⟨rfl,
   (newSession_spec.1 [] "k" [] rfl).1,
   (newSession_spec.1 [] "k" [] rfl).2.1,
   (newSession_spec.2 (handleNewSession [] "k" []).1 "k"
      [{ title := "t", url := "u" }] _ (newSession_spec.1 [] "k" [] rfl).2.1).1,
   (newSession_spec.2 (handleNewSession [] "k" []).1 "k"
      [{ title := "t", url := "u" }] _ (newSession_spec.1 [] "k" [] rfl).2.1).2⟩

/-- C4: `PlayerConnect` is a silent no-op when no session exists for the
key; otherwise it sends the connecting handle `ChangeState` (current state)
and `ChangePlaylist` (current index), appends the handle as the newest
element of the player set, and sends exactly one `SyncPosition` to the first
handle of the resulting player set — with one prior handle `a`, that request
goes to `a`, not to the newcomer. -/
theorem playerConnect_spec :
    (∀ (m : SessionManager) (k : String) (h : Handle),
        findSession m k = none → handlePlayerConnect m k h = (m, [])) ∧
    (∀ (m : SessionManager) (k : String) (h : Handle) (s : Session),
        findSession m k = some s →
        findSession (handlePlayerConnect m k h).1 k =
          some { s with players := s.players ++ [h] } ∧
        (handlePlayerConnect m k h).2 =
          [(h, .ChangeState s.state), (h, .ChangePlaylist s.playlist_index),
           ((s.players ++ [h]).headD h, .SyncPosition)]) ∧
    (∀ (m : SessionManager) (k : String) (h a : Handle) (s : Session),
        findSession m k = some s → s.players = [a] →
        (handlePlayerConnect m k h).2 =
          [(h, .ChangeState s.state), (h, .ChangePlaylist s.playlist_index),
           (a, .SyncPosition)]) := by
  refine ⟨?_, ?_, ?_⟩
  · intro m k h hnone
    simp [handlePlayerConnect, hnone]
  · intro m k h s hsome
    constructor
    · simp [handlePlayerConnect, hsome, findSession_updateSession_self]
    · simp [handlePlayerConnect, hsome]
  · intro m k h a s hsome hpl
    simp [handlePlayerConnect, hsome, hpl]

theorem playerConnect_spec_witness :
    findSession
        [("k", { shitposts := [], state := .Paused, playlist_index := 0,
                 players := [7] })] "k" =
      some { shitposts := [], state := .Paused, playlist_index := 0,
             players := [7] } ∧
    Session.players
        { shitposts := [], state := .Paused, playlist_index := 0,
          players := [7] } = [7] ∧
    (handlePlayerConnect
        [("k", { shitposts := [], state := .Paused, playlist_index := 0,
                 players := [7] })] "k" 9).2 =
      [(9, .ChangeState .Paused), (9, .ChangePlaylist 0),
       (7, .SyncPosition)] :=
  ⟨rfl, rfl,
   playerConnect_spec.2.2
     [("k", { shitposts := [], state := .Paused, playlist_index := 0,
              players := [7] })] "k" 9 7 _ rfl rfl⟩

/-- C6: `PlayerDisconnect` removes the handle from the player set by
identity comparison (keeping everything different from it, in order); if
the set becomes empty the session is deleted, so after disconnecting the
sole remaining handle a `GetSession` for that key returns nothing. -/
theorem playerDisconnect_spec :
    (∀ (m : SessionManager) (k : String) (h : Handle) (s : Session),
        findSession m k = some s → s.players.filter (· ≠ h) ≠ [] →
        findSession (handlePlayerDisconnect m k h) k =
          some { s with players := s.players.filter (· ≠ h) }) ∧
    (∀ (m : SessionManager) (k : String) (h : Handle) (s : Session),
        findSession m k = some s → s.players.filter (· ≠ h) = [] →
        handleGetSession (handlePlayerDisconnect m k h) k = none) ∧
    (∀ (m : SessionManager) (k : String) (h : Handle) (s : Session),
        findSession m k = some s → s.players = [h] →
        handleGetSession (handlePlayerDisconnect m k h) k = none) := by
  refine ⟨?_, ?_, ?_⟩
  · intro m k h s hsome hne
    simp only [handlePlayerDisconnect, hsome]
    rw [if_neg hne, findSession_updateSession_self, hsome]
    rfl
  · intro m k h s hsome hempty
    simp only [handlePlayerDisconnect, handleGetSession, hsome]
    rw [if_pos hempty, findSession_removeSession_self]
  · intro m k h s hsome hpl
    have hempty : s.players.filter (· ≠ h) = [] := by simp [hpl]
    simp only [handlePlayerDisconnect, handleGetSession, hsome]
    rw [if_pos hempty, findSession_removeSession_self]

theorem playerDisconnect_spec_witness :
    findSession
        [("k", { shitposts := [], state := .Paused, playlist_index := 0,
                 players := [5] })] "k" =
      some { shitposts := [], state := .Paused, playlist_index := 0,
             players := [5] } ∧
    Session.players
        { shitposts := [], state := .Paused, playlist_index := 0,
          players := [5] } = [5] ∧
    handleGetSession
        (handlePlayerDisconnect
          [("k", { shitposts := [], state := .Paused, playlist_index := 0,
                   players := [5] })] "k" 5) "k" = none :=
  ⟨rfl, rfl,
   playerDisconnect_spec.2.2
     [("k", { shitposts := [], state := .Paused, playlist_index := 0,
              players := [5] })] "k" 5 _ rfl rfl⟩

/-- C7: disconnection preserves the relative order of the remaining
handles, so with handles connected in order `a, b, c`, disconnecting `a`
leaves the session's player set `[b, c]`, and a subsequent connect of `d`
issues its `SyncPosition` request to `b` (the new first handle), not to `c`
or `d`. -/
theorem leaderSuccession_spec :
    ∀ (m : SessionManager) (k : String) (a b c d : Handle) (s : Session),
      findSession m k = some s → s.players = [a, b, c] →
      b ≠ a → c ≠ a →
      findSession (handlePlayerDisconnect m k a) k =
        some { s with players := [b, c] } ∧
      (handlePlayerConnect (handlePlayerDisconnect m k a) k d).2 =
        [(d, .ChangeState s.state), (d, .ChangePlaylist s.playlist_index),
         (b, .SyncPosition)] := by
  intro m k a b c d s hsome hpl hb hc
  have hfilter : s.players.filter (· ≠ a) = [b, c] := by
    simp [hpl, hb, hc]
  have hne : s.players.filter (· ≠ a) ≠ [] := by
    rw [hfilter]; simp
  have h1 : findSession (handlePlayerDisconnect m k a) k =
      some { s with players := [b, c] } := by
    simp only [handlePlayerDisconnect, hsome]
    rw [if_neg hne, findSession_updateSession_self, hsome]
    simp only [Option.map_some']
    rw [hfilter]
  exact ⟨h1, by simp [handlePlayerConnect, h1]⟩

theorem leaderSuccession_spec_witness :
    findSession
        [("k", { shitposts := [], state := .Playing, playlist_index := 2,
                 players := [1, 2, 3] })] "k" =
      some { shitposts := [], state := .Playing, playlist_index := 2,
             players := [1, 2, 3] } ∧
    Session.players
        { shitposts := [], state := .Playing, playlist_index := 2,
          players := [1, 2, 3] } = [1, 2, 3] ∧
    (2 : Handle) ≠ 1 ∧ (3 : Handle) ≠ 1 ∧
    (findSession
        (handlePlayerDisconnect
          [("k", { shitposts := [], state := .Playing, playlist_index := 2,
                   players := [1, 2, 3] })] "k" 1) "k" =
      some { shitposts := [], state := .Playing, playlist_index := 2,
             players := [2, 3] } ∧
    (handlePlayerConnect
        (handlePlayerDisconnect
          [("k", { shitposts := [], state := .Playing, playlist_index := 2,
                   players := [1, 2, 3] })] "k" 1) "k" 4).2 =
      [(4, .ChangeState .Playing), (4, .ChangePlaylist 2),
       (2, .SyncPosition)]) :=
  ⟨rfl, rfl, by decide, by decide,
   leaderSuccession_spec
     [("k", { shitposts := [], state := .Playing, playlist_index := 2,
              players := [1, 2, 3] })] "k" 1 2 3 4 _ rfl rfl
     (by decide) (by decide)⟩

/-- C8: `StateChanged` on an existing session replaces the stored state and
sends a `ChangeState` command carrying the new state to every connected
handle of the session, including the one that reported the change. -/
theorem stateChanged_spec :
    ∀ (m : SessionManager) (k : String) (st : State) (s : Session),
      findSession m k = some s →
      findSession (handleStateChanged m k st).1 k =
        some { s with state := st } ∧
      (handleStateChanged m k st).2 =
        s.players.map (fun p => (p, .ChangeState st)) ∧
      ∀ p, p ∈ s.players →
        (p, BackendMessage.ChangeState st) ∈ (handleStateChanged m k st).2 := by
  intro m k st s hsome
  refine ⟨?_, ?_, ?_⟩
  · simp [handleStateChanged, hsome, findSession_updateSession_self]
  · simp [handleStateChanged, hsome]
  · intro p hp
    simp only [handleStateChanged, hsome]
    exact List.mem_map.mpr ⟨p, hp, rfl⟩

theorem stateChanged_spec_witness :
    findSession
        [("k", { shitposts := [], state := .Paused, playlist_index := 0,
                 players := [1, 2, 3] })] "k" =
      some { shitposts := [], state := .Paused, playlist_index := 0,
             players := [1, 2, 3] } ∧
    (1, BackendMessage.ChangeState .Playing) ∈
      (handleStateChanged
        [("k", { shitposts := [], state := .Paused, playlist_index := 0,
                 players := [1, 2, 3] })] "k" .Playing).2 ∧
    (2, BackendMessage.ChangeState .Playing) ∈
      (handleStateChanged
        [("k", { shitposts := [], state := .Paused, playlist_index := 0,
                 players := [1, 2, 3] })] "k" .Playing).2 ∧
    (3, BackendMessage.ChangeState .Playing) ∈
      (handleStateChanged
        [("k", { shitposts := [], state := .Paused, playlist_index := 0,
                 players := [1, 2, 3] })] "k" .Playing).2 ∧
    findSession
        (handleStateChanged
          [("k", { shitposts := [], state := .Paused, playlist_index := 0,
                   players := [1, 2, 3] })] "k" .Playing).1 "k" =
      some { shitposts := [], state := .Playing, playlist_index := 0,
             players := [1, 2, 3] } :=
  ⟨rfl,
   (stateChanged_spec
      [("k", { shitposts := [], state := .Paused, playlist_index := 0,
               players := [1, 2, 3] })] "k" .Playing _ rfl).2.2 1 (by decide),
   (stateChanged_spec
      [("k", { shitposts := [], state := .Paused, playlist_index := 0,
               players := [1, 2, 3] })] "k" .Playing _ rfl).2.2 2 (by decide),
   (stateChanged_spec
      [("k", { shitposts := [], state := .Paused, playlist_index := 0,
               players := [1, 2, 3] })] "k" .Playing _ rfl).2.2 3 (by decide),
   (stateChanged_spec
      [("k", { shitposts := [], state := .Paused, playlist_index := 0,
               players := [1, 2, 3] })] "k" .Playing _ rfl).1⟩

/-- C9: `Position` on an existing session broadcasts a `ChangePosition`
command carrying the reported seconds value to every connected handle,
including the sender, and leaves the whole session map unchanged (no
position value is retained in registry state). -/
theorem position_spec :
    ∀ (m : SessionManager) (k : String) (pos : Int) (s : Session),
      findSession m k = some s →
      (handlePosition m k pos).1 = m ∧
      (handlePosition m k pos).2 =
        s.players.map (fun p => (p, .ChangePosition pos)) ∧
      ∀ p, p ∈ s.players →
        (p, BackendMessage.ChangePosition pos) ∈ (handlePosition m k pos).2 := by
  intro m k pos s hsome
  refine ⟨?_, ?_, ?_⟩
  · simp [handlePosition, hsome]
  · simp [handlePosition, hsome]
  · intro p hp
    simp only [handlePosition, hsome]
    exact List.mem_map.mpr ⟨p, hp, rfl⟩

theorem position_spec_witness :
    findSession
        [("k", { shitposts := [], state := .Playing, playlist_index := 0,
                 players := [1, 2] })] "k" =
      some { shitposts := [], state := .Playing, playlist_index := 0,
             players := [1, 2] } ∧
    (handlePosition
        [("k", { shitposts := [], state := .Playing, playlist_index := 0,
                 players := [1, 2] })] "k" 42).1 =
      [("k", { shitposts := [], state := .Playing, playlist_index := 0,
               players := [1, 2] })] ∧
    (handlePosition
        [("k", { shitposts := [], state := .Playing, playlist_index := 0,
                 players := [1, 2] })] "k" 42).2 =
      [(1, .ChangePosition 42), (2, .ChangePosition 42)] ∧
    (1, BackendMessage.ChangePosition 42) ∈
      (handlePosition
        [("k", { shitposts := [], state := .Playing, playlist_index := 0,
                 players := [1, 2] })] "k" 42).2 :=
  ⟨rfl,
   (position_spec
      [("k", { shitposts := [], state := .Playing, playlist_index := 0,
               players := [1, 2] })] "k" 42 _ rfl).1,
   (position_spec
      [("k", { shitposts := [], state := .Playing, playlist_index := 0,
               players := [1, 2] })] "k" 42 _ rfl).2.1,
   (position_spec
      [("k", { shitposts := [], state := .Playing, playlist_index := 0,
               players := [1, 2] })] "k" 42 _ rfl).2.2 1 (by decide)⟩

/-- C10: `PlaylistChanged` on an existing session unconditionally stores the
reported index — any natural number, with no bounds check against the
content sequence, so the stored index can point past the last content item —
and sends a `ChangePlaylist` command carrying it to every connected
handle. -/
theorem playlistChanged_spec :
    ∀ (m : SessionManager) (k : String) (i : Nat) (s : Session),
      findSession m k = some s →
      findSession (handlePlaylistChanged m k i).1 k =
        some { s with playlist_index := i } ∧
      (handlePlaylistChanged m k i).2 =
        s.players.map (fun p => (p, .ChangePlaylist i)) := by
  intro m k i s hsome
  constructor
  · simp [handlePlaylistChanged, hsome, findSession_updateSession_self]
  · simp [handlePlaylistChanged, hsome]

theorem playlistChanged_spec_witness :
    findSession
        [("k", { shitposts := [], state := .Paused, playlist_index := 0,
                 players := [1] })] "k" =
      some { shitposts := [], state := .Paused, playlist_index := 0,
             players := [1] } ∧
    List.length ([] : List Shitpost) ≤ 5 ∧
    findSession
        (handlePlaylistChanged
          [("k", { shitposts := [], state := .Paused, playlist_index := 0,
                   players := [1] })] "k" 5).1 "k" =
      some { shitposts := [], state := .Paused, playlist_index := 5,
             players := [1] } ∧
    (handlePlaylistChanged
        [("k", { shitposts := [], state := .Paused, playlist_index := 0,
                 players := [1] })] "k" 5).2 = [(1, .ChangePlaylist 5)] :=
  ⟨rfl, by decide,
   (playlistChanged_spec
      [("k", { shitposts := [], state := .Paused, playlist_index := 0,
               players := [1] })] "k" 5 _ rfl).1,
   (playlistChanged_spec
      [("k", { shitposts := [], state := .Paused, playlist_index := 0,
               players := [1] })] "k" 5 _ rfl).2⟩

/-- C1 counterexample: immediately after a successful `NewSession` — before
any `PlayerConnect` — a session with the given key and an *empty* player
set is present in the registry, contradicting the claimed invariant that no
empty-player session ever exists after creation and before the first
connect. -/
theorem sessionRegistry_invariant_counterexample :
    (handleNewSession [] "k" []).2 = true ∧
    findSession (handleNewSession [] "k" []).1 "k" =
      some { shitposts := [], state := .Paused, playlist_index := 0,
             players := [] } ∧
    Session.players
        { shitposts := [], state := .Paused, playlist_index := 0,
          players := [] } = [] :=
  ⟨rfl, rfl, rfl⟩

/-- C1 amended: a freshly created session starts with an empty player set
and persists until its first connect; the destroy-on-empty half of the
invariant does hold for disconnection — after any `PlayerDisconnect`, every
session still present under the disconnected key has a nonempty player
set (the moment a disconnect empties the set, the session is removed). -/
theorem sessionRegistry_invariant_amended :
    (∀ (m : SessionManager) (k : String) (h : Handle) (s' : Session),
        findSession (handlePlayerDisconnect m k h) k = some s' →
        s'.players ≠ []) ∧
    (∀ (m : SessionManager) (k : String) (posts : List Shitpost),
        findSession m k = none →
        findSession (handleNewSession m k posts).1 k =
          some { shitposts := posts, state := .Paused, playlist_index := 0,
                 players := [] }) := by
  constructor
  · intro m k h s' hs'
    rcases hm : findSession m k with _ | s
    · rw [handlePlayerDisconnect, hm] at hs'
      simp only at hs'
      rw [hm] at hs'
      exact Option.noConfusion hs'
    · by_cases hf : s.players.filter (· ≠ h) = []
      · rw [handlePlayerDisconnect, hm] at hs'
        simp only at hs'
        rw [if_pos hf, findSession_removeSession_self] at hs'
        exact Option.noConfusion hs'
      · rw [handlePlayerDisconnect, hm] at hs'
        simp only at hs'
        rw [if_neg hf, findSession_updateSession_self, hm,
          Option.map_some'] at hs'
        obtain rfl := Option.some.inj hs'
        simpa using hf
  · intro m k posts hnone
    simp [handleNewSession, hnone, findSession]

theorem sessionRegistry_invariant_amended_witness :
    findSession
        (handlePlayerDisconnect
          [("k", { shitposts := [], state := .Paused, playlist_index := 0,
                   players := [1, 2] })] "k" 1) "k" =
      some { shitposts := [], state := .Paused, playlist_index := 0,
             players := [2] } ∧
    Session.players
        { shitposts := [], state := .Paused, playlist_index := 0,
          players := [2] } ≠ [] ∧
    findSession [] "k" = none ∧
    findSession (handleNewSession [] "k" []).1 "k" =
      some { shitposts := [], state := .Paused, playlist_index := 0,
             players := [] } :=
  ⟨rfl,
   sessionRegistry_invariant_amended.1
     [("k", { shitposts := [], state := .Paused, playlist_index := 0,
              players := [1, 2] })] "k" 1
     { shitposts := [], state := .Paused, playlist_index := 0,
       players := [2] } rfl,
   rfl,
   sessionRegistry_invariant_amended.2 [] "k" [] rfl⟩

/-- C2 counterexample: the inbound enum has no serde rename attribute, so
the snake_case discriminants of §6 are rejected on parse — `{"seeked":
null}` and `{"state_changed": "paused"}` both fail to decode — and the
payload-free outbound command serializes to the bare string
`"sync_position"`, not to the object `{"sync_position": null}`. -/
theorem socketProtocol_counterexample :
    deserializePlayerMessage (Json.obj [("seeked", Json.null)]) = none ∧
    deserializePlayerMessage
      (Json.obj [("state_changed", Json.str "paused")]) = none ∧
    serializeBackendMessage .SyncPosition ≠
      Json.obj [("sync_position", Json.null)] :=
  ⟨rfl, rfl, by simp [serializeBackendMessage]⟩

/-- C2 amended: inbound client events parse from serde's externally-tagged
representation keyed by the verbatim variant names `Seeked`, `StateChanged`,
`Position`, `PlaylistChanged` (the payload-free `Seeked` also parses from
the bare string `"Seeked"`), and serialization round-trips; outbound
commands do use snake_case discriminants, the payload-carrying ones as
single-key objects, while the payload-free `SyncPosition` serializes as the
bare string `"sync_position"`. -/
theorem socketProtocol_amended :
    deserializePlayerMessage (Json.str "Seeked") = some .Seeked ∧
    deserializePlayerMessage (Json.obj [("Seeked", Json.null)]) =
      some .Seeked ∧
    (∀ s : State,
      deserializePlayerMessage
        (Json.obj [("StateChanged", Json.str (stateToken s))]) =
        some (.StateChanged s)) ∧
    (∀ n : Int,
      deserializePlayerMessage (Json.obj [("Position", Json.num n)]) =
        some (.Position n)) ∧
    (∀ i : Nat,
      deserializePlayerMessage
        (Json.obj [("PlaylistChanged", Json.num (i : Int))]) =
        some (.PlaylistChanged i)) ∧
    (∀ msg : PlayerMessage,
      deserializePlayerMessage (serializePlayerMessage msg) = some msg) ∧
    serializeBackendMessage .SyncPosition = Json.str "sync_position" ∧
    (∀ s : State,
      serializeBackendMessage (.ChangeState s) =
        Json.obj [("change_state", Json.str (stateToken s))]) ∧
    (∀ n : Int,
      serializeBackendMessage (.ChangePosition n) =
        Json.obj [("change_position", Json.num n)]) ∧
    (∀ i : Nat,
      serializeBackendMessage (.ChangePlaylist i) =
        Json.obj [("change_playlist", Json.num (i : Int))]) := by
  refine ⟨rfl, rfl, ?_, ?_, ?_, ?_, rfl, ?_, ?_, ?_⟩
  · intro s; cases s <;> rfl
  · intro n; rfl
  · intro i; rfl
  · intro msg
    rcases msg with _ | s | p | i
    · rfl
    · cases s <;> rfl
    · rfl
    · rfl
  · intro s; rfl
  · intro n; rfl
  · intro i; rfl

/-- C3: on an inbound text frame whose contents fail to decode as a
`PlayerMessage`, the stream handler of `player.rs` reaches
`serde_json::from_str(&text).unwrap()` and panics, rather than taking the
`ctx.stop()` termination arm that non-text frames take — so the connection
is torn down by an unwinding panic that skips the actor's `stopped`
lifecycle hook (which is what sends `PlayerDisconnect`), instead of by the
graceful stop the claim describes. -/
theorem malformedFrame_outcome :
    streamHandle "k" 0 (.Text (Json.obj [("seeked", Json.null)])) = .Panic ∧
    streamHandle "k" 0 .Binary = .Stop ∧
    StreamOutcome.Panic ≠ StreamOutcome.Stop :=
  ⟨rfl, rfl, by decide⟩
